import Mathlib

/-!
# Verification of the Cosmos DB management sample (`src/Python/app.py`)

A shallow embedding of the sample's own logic.  External SDK calls
(control-plane requests, credential acquisition) are modelled as explicit
inputs/outputs of the embedded functions; everything the Python file itself
computes (configuration parsing, scope strings, the throughput-update
decision, base64url/JWT handling, deterministic role-assignment ids via
`uuid5`/SHA-1, and the interactive-menu dispatch) is translated directly.

Machine integers: Python ints are arbitrary precision, so they are `Int`
(`Nat` where the source value is a count); SHA-1's 32-bit arithmetic is
`Nat` with explicit `% 2 ^ 32`.
-/

namespace CosmosSample

/-- Decidable equality for `Except`, used to evaluate the embedded
fallible operations on concrete inputs. -/
instance {ε α : Type} [DecidableEq ε] [DecidableEq α] : DecidableEq (Except ε α) := by
  intro a b
  cases a <;> cases b
  case error.error e₁ e₂ =>
    exact if h : e₁ = e₂ then .isTrue (by rw [h]) else .isFalse (by simp [h])
  case ok.ok v₁ v₂ =>
    exact if h : v₁ = v₂ then .isTrue (by rw [h]) else .isFalse (by simp [h])
  all_goals exact .isFalse (by simp)

/-! ## Python string helpers

Executable models of the `str` methods the sample uses: `strip()` (drop
leading/trailing whitespace; the ASCII whitespace set, which is what the
sample's inputs contain), `strip('"')`, `lower()` (ASCII case fold),
`split(sep)`. -/

def isPySpace (c : Char) : Bool :=
  c == ' ' || c == '\t' || c == '\n' || c == '\r' || c == '\x0b' || c == '\x0c'

/-- Python `str.strip()`. -/
def pyStrip (s : String) : String :=
  String.mk (((s.data.dropWhile isPySpace).reverse.dropWhile isPySpace).reverse)

/-- Python `str.lower()` (ASCII range). -/
def pyLowerChar (c : Char) : Char :=
  if 'A' ≤ c && c ≤ 'Z' then Char.ofNat (c.toNat + 32) else c

def pyLower (s : String) : String := String.mk (s.data.map pyLowerChar)

/-- Split a char list at every occurrence of `sep`. -/
def splitChar (sep : Char) : List Char → List (List Char)
  | [] => [[]]
  | c :: rest =>
    let r := splitChar sep rest
    if c == sep then [] :: r
    else
      match r with
      | h :: t => (c :: h) :: t
      | [] => [[c]]

/-- Python `str.split(sep)` with a one-character separator. -/
def pySplit (s : String) (sep : Char) : List String :=
  (splitChar sep s.data).map String.mk

/-- Python `str.strip('"')`: drop every leading and trailing `"` character. -/
def stripQuotes (s : String) : String :=
  String.mk (((s.data.dropWhile (· == '"')).reverse.dropWhile (· == '"')).reverse)

/-- `_clean` from `load_config` (app.py lines 97-101). -/
def clean (value : Option String) : Option String :=
  match value with
  | none => none
  | some v =>
    let v' := stripQuotes (pyStrip v)
    if v' = "" then none else some v'

/-! ## Python `int(str)` (used for `max_autoscale_throughput` and the menu's
throughput delta).  Accepts an optional sign followed by ASCII digits, with
single underscores allowed between digits (Python's numeric-literal rule). -/

def isAsciiDigit (c : Char) : Bool := '0' ≤ c && c ≤ '9'

def digitVal (c : Char) : Nat := c.toNat - 48

def noDoubleUnderscore : List Char → Bool
  | c₁ :: c₂ :: rest => !(c₁ == '_' && c₂ == '_') && noDoubleUnderscore (c₂ :: rest)
  | _ => true

def digitsOk (cs : List Char) : Bool :=
  match cs with
  | [] => false
  | _ =>
    cs.all (fun c => isAsciiDigit c || c == '_') &&
    isAsciiDigit (cs.headD '_') && isAsciiDigit (cs.getLastD '_') &&
    noDoubleUnderscore cs

def digitsToNat (cs : List Char) : Nat :=
  (cs.filter isAsciiDigit).foldl (fun a c => a * 10 + digitVal c) 0

def parseIntPy (s : String) : Option Int :=
  match s.data with
  | '+' :: rest => if digitsOk rest then some (Int.ofNat (digitsToNat rest)) else none
  | '-' :: rest => if digitsOk rest then some (-(Int.ofNat (digitsToNat rest))) else none
  | cs => if digitsOk cs then some (Int.ofNat (digitsToNat cs)) else none

/-! ## Configuration (`Settings`, `load_config`, app.py lines 53-137)

The config file is modelled as the key-lookup function produced by
`dotenv_values`: `env key` is `none` when the key is absent (or has no
value), `some v` otherwise.  `FileNotFoundError` (file missing on disk) is
outside the embedding's inputs. -/

structure Settings where
  subscription_id : String
  resource_group_name : String
  account_name : String
  location : String
  database_name : String
  container_name : String
  max_autoscale_throughput : Int := 1000
  deriving DecidableEq

def required_keys : List String :=
  ["subscription_id", "resource_group_name", "account_name", "location",
    "database_name", "container_name"]

inductive ConfigError where
  /-- `ValueError` "Missing required keys in ...: k1, k2" — carries the missing keys. -/
  | missingKeys (keys : List String)
  /-- `ValueError` "max_autoscale_throughput must be an integer". -/
  | throughputNotInt
  /-- `ValueError` "max_autoscale_throughput must be >= 1000". -/
  | throughputTooSmall
  deriving DecidableEq

def load_config (env : String → Option String) : Except ConfigError Settings :=
  let missing := required_keys.filter (fun key => (clean (env key)).isNone)
  if missing ≠ [] then
    .error (.missingKeys missing)
  else
    let parsedMax : Except ConfigError Int :=
      match clean (env "max_autoscale_throughput") with
      | none => .ok 1000
      | some raw =>
        match parseIntPy raw with
        | none => .error .throughputNotInt
        | some v => .ok v
    match parsedMax with
    | .error e => .error e
    | .ok max_autoscale_throughput =>
      if max_autoscale_throughput < 1000 then
        .error .throughputTooSmall
      else
        .ok {
          subscription_id := (clean (env "subscription_id")).getD ""
          resource_group_name := (clean (env "resource_group_name")).getD ""
          account_name := (clean (env "account_name")).getD ""
          location := (clean (env "location")).getD ""
          database_name := (clean (env "database_name")).getD ""
          container_name := (clean (env "container_name")).getD ""
          max_autoscale_throughput := max_autoscale_throughput
        }

/-- The `max_autoscale_throughput` value a config yields when it is valid
(default 1000 when the key is absent). -/
def configured_max (env : String → Option String) : Int :=
  match clean (env "max_autoscale_throughput") with
  | none => 1000
  | some raw => (parseIntPy raw).getD 1000

/-- The configured `max_autoscale_throughput` parses as an integer of at
least 1000 (vacuously true when the key is absent). -/
def throughput_config_ok (env : String → Option String) : Bool :=
  match clean (env "max_autoscale_throughput") with
  | none => true
  | some raw =>
    match parseIntPy raw with
    | none => false
    | some v => decide (1000 ≤ v)

/-! ## Scope resolver (`get_assignable_scope`, app.py lines 628-645) -/

def get_assignable_scope (settings : Settings) (scope : String) : String :=
  let scopeResourceGroup :=
    "/subscriptions/" ++ settings.subscription_id ++
      "/resourceGroups/" ++ settings.resource_group_name
  let scopeAccount :=
    "/subscriptions/" ++ settings.subscription_id ++
      "/resourceGroups/" ++ settings.resource_group_name ++
      "/providers/Microsoft.DocumentDB/databaseAccounts/" ++ settings.account_name
  let scopeDatabase :=
    "/subscriptions/" ++ settings.subscription_id ++
      "/resourceGroups/" ++ settings.resource_group_name ++
      "/providers/Microsoft.DocumentDB/databaseAccounts/" ++ settings.account_name ++
      "/dbs/" ++ settings.database_name
  let scopeContainer :=
    "/subscriptions/" ++ settings.subscription_id ++
      "/resourceGroups/" ++ settings.resource_group_name ++
      "/providers/Microsoft.DocumentDB/databaseAccounts/" ++ settings.account_name ++
      "/dbs/" ++ settings.database_name ++
      "/colls/" ++ settings.container_name
  if scope = "ResourceGroup" then scopeResourceGroup
  else if scope = "Account" then scopeAccount
  else if scope = "Database" then scopeDatabase
  else if scope = "Container" then scopeContainer
  else scopeAccount

/-- The subscription-level scope string used by
`get_azure_role_definition_cosmos_operator` (app.py line 500); it is not one
of the `get_assignable_scope` mapping entries. -/
def subscription_scope (settings : Settings) : String :=
  "/subscriptions/" ++ settings.subscription_id

/-- Boolean "the char list `a` begins the char list `b`". -/
def listBegins : List Char → List Char → Bool
  | [], _ => true
  | _ :: _, [] => false
  | x :: xs, y :: ys => x == y && listBegins xs ys

/-- Boolean "`needle` occurs somewhere in `hay`". -/
def listContainsSub (needle : List Char) : List Char → Bool
  | [] => listBegins needle []
  | c :: rest => listBegins needle (c :: rest) || listContainsSub needle rest

/-- Boolean substring test on strings. -/
def strContainsSub (hay needle : String) : Bool := listContainsSub needle.data hay.data

/-- Boolean "the string `a` begins the string `b`" (string-prefix test). -/
def strBegins (a b : String) : Bool := listBegins a.data b.data

/-- `a` begins `b` and is shorter: a strict string-prefix test. -/
def strBeginsStrict (a b : String) : Bool :=
  strBegins a b && decide (a.data.length < b.data.length)

/-! ## Throughput update (`update_throughput`, app.py lines 371-453)

The control-plane read `get_sql_container_throughput` is an input: either an
`HttpResponseError` carrying `getattr(ex, "status_code", None)`, or a
response whose `resource` attribute is modelled (each `getattr(_, _, None)`
chain becomes an `Option` projection). -/

structure AutoscaleSettingsRec where
  max_throughput : Option Int
  deriving DecidableEq

structure ThroughputRec where
  autoscale_settings : Option AutoscaleSettingsRec
  throughput : Option Int
  deriving DecidableEq

inductive ThroughputUpdate where
  /-- Submit `ThroughputSettingsResource(autoscale_settings=AutoscaleSettingsResource(max_throughput=...))`. -/
  | autoscale (max_throughput : Int)
  /-- Submit `ThroughputSettingsResource(throughput=...)`. -/
  | manual (throughput : Int)
  deriving DecidableEq

inductive ThroughputError where
  /-- `RuntimeError` "Container throughput settings were not found. ..." -/
  | noDedicatedThroughput
  /-- The original `HttpResponseError` re-raised by the bare `raise`. -/
  | httpError (status_code : Option Nat)
  deriving DecidableEq

/-- The branch of `update_throughput` after a successful read
(app.py lines 396-430): which update document is submitted. -/
def compute_throughput_update (max_autoscale_default : Int)
    (existing_resource : Option ThroughputRec) (add_throughput : Int) : ThroughputUpdate :=
  let autoscale_settings := existing_resource.bind (fun r => r.autoscale_settings)
  let current_autoscale_max := autoscale_settings.bind (fun a => a.max_throughput)
  let current_manual_throughput := existing_resource.bind (fun r => r.throughput)
  match current_autoscale_max with
  | some m =>
    -- baseline = current_autoscale_max or settings.max_autoscale_throughput
    let baseline := if m = 0 then max_autoscale_default else m
    .autoscale (baseline + add_throughput)
  | none =>
    -- baseline = current_manual_throughput or 0; if baseline == 0: baseline, add = add, 0
    let baseline := match current_manual_throughput with
      | none => (0 : Int)
      | some t => if t = 0 then 0 else t
    if baseline = 0 then .manual add_throughput else .manual (baseline + add_throughput)

/-- `update_throughput` up to the submission of the update document:
read-error handling (lines 382-394) plus the decision (lines 396-430). -/
def update_throughput (max_autoscale_default : Int)
    (read_result : Except (Option Nat) (Option ThroughputRec))
    (add_throughput : Int) : Except ThroughputError ThroughputUpdate :=
  match read_result with
  | .error status_code =>
    if status_code = some 404 then .error .noDedicatedThroughput
    else .error (.httpError status_code)
  | .ok existing_resource =>
    .ok (compute_throughput_update max_autoscale_default existing_resource add_throughput)

/-! ## Orchestration (`run_interactive_menu` lines 682-726, `run_full_sample`
lines 728-742)

One menu iteration, modelled as the list of operations it dispatches when
every dispatched collaborator call succeeds.  `_prompt` strips its result;
the selection is additionally lowercased, and the delete confirmation is
stripped again. -/

inductive Op where
  | createAccount
  | resolveAzureRole
  | azureRbacAssignment
  | createDatabase
  | createContainer
  | updateThroughputBy (delta : Int)
  | resolveCosmosRole
  | cosmosRbacAssignment
  | deleteAccount
  deriving DecidableEq

/-- `run_full_sample`: the fixed pipeline, plus the opt-in account delete
when `os.environ.get("COSMOS_SAMPLE_DELETE_ACCOUNT", "").lower() == "true"`. -/
def run_full_sample_ops (env_delete_account : Option String) : List Op :=
  [.createAccount, .resolveAzureRole, .azureRbacAssignment, .createDatabase,
    .createContainer, .updateThroughputBy 1000, .resolveCosmosRole, .cosmosRbacAssignment] ++
    (if pyLower (env_delete_account.getD "") = "true" then [.deleteAccount] else [])

/-- One iteration of `run_interactive_menu`: `selection` is the raw text of
the selection prompt, `delta_input` the raw text of the throughput-delta
prompt (consulted only for selection 6), `confirm_input` the raw text of the
delete-confirmation prompt (consulted only for selection 8). -/
def menu_step_ops (selection delta_input confirm_input : String)
    (env_delete_account : Option String) : List Op :=
  let sel := pyLower (pyStrip selection)
  if sel = "0" ∨ sel = "q" ∨ sel = "quit" ∨ sel = "exit" then []
  else if sel = "1" then run_full_sample_ops env_delete_account
  else if sel = "2" then [.createAccount]
  else if sel = "3" then [.resolveAzureRole, .azureRbacAssignment]
  else if sel = "4" then [.createDatabase]
  else if sel = "5" then [.createContainer]
  else if sel = "6" then
    let raw := pyStrip delta_input
    if raw = "" then [.updateThroughputBy 1000]
    else
      match parseIntPy raw with
      | some d => [.updateThroughputBy d]
      | none => []  -- int(raw) raises; caught by the menu loop, nothing dispatched
  else if sel = "7" then [.resolveCosmosRole, .cosmosRbacAssignment]
  else if sel = "8" then
    if pyStrip (pyStrip confirm_input) = "DELETE" then [.deleteAccount] else []
  else []

/-! ## base64url (`_b64url_decode`, app.py lines 177-180)

`base64.urlsafe_b64decode` translates `-`/`_` to `+`/`/`, discards any
character outside the base64 alphabet and `=` (its default non-validating
mode), then decodes 4-character groups; a final group may carry one or two
`=` padding characters.  `_b64url_decode` first appends
`"=" * (-len(data) % 4)`.  Decoding is `Option`-valued: `none` models the
`binascii.Error` raised on malformed input. -/

def b64_std_alphabet : List Char :=
  "ABCDEFGHIJKLMNOPQRSTUVWXYZabcdefghijklmnopqrstuvwxyz0123456789+/".data

def b64_url_alphabet : List Char :=
  "ABCDEFGHIJKLMNOPQRSTUVWXYZabcdefghijklmnopqrstuvwxyz0123456789-_".data

/-- Character of the URL-safe alphabet for a 6-bit value (used by the
encoder that produced a JWT segment). -/
def b64Chr (v : Nat) : Char := b64_url_alphabet.getD v 'A'

/-- 6-bit value of a standard-alphabet character. -/
def b64Val (c : Char) : Option Nat := b64_std_alphabet.indexOf? c

/-- The `-`/`_` → `+`/`/` translation done by `urlsafe_b64decode`. -/
def translateUrl (c : Char) : Char :=
  if c = '-' then '+' else if c = '_' then '/' else c

/-- Decode 4-character base64 groups (standard alphabet, `=` padding only in
the final group). -/
def decodeQuads : List Char → Option (List Nat)
  | [] => some []
  | c₁ :: c₂ :: c₃ :: c₄ :: rest =>
    match b64Val c₁, b64Val c₂ with
    | some v₁, some v₂ =>
      if c₃ = '=' then
        if c₄ = '=' ∧ rest = [] then some [v₁ * 4 + v₂ / 16] else none
      else
        match b64Val c₃ with
        | some v₃ =>
          if c₄ = '=' then
            if rest = [] then some [v₁ * 4 + v₂ / 16, v₂ % 16 * 16 + v₃ / 4] else none
          else
            match b64Val c₄ with
            | some v₄ =>
              match decodeQuads rest with
              | some bs => some ((v₁ * 4 + v₂ / 16) :: (v₂ % 16 * 16 + v₃ / 4) :: (v₃ % 4 * 64 + v₄) :: bs)
              | none => none
            | none => none
        | none => none
    | _, _ => none
  | _ => none

def urlsafe_b64decode (s : String) : Option (List Nat) :=
  let translated := s.data.map translateUrl
  let cleaned := translated.filter (fun c => (b64Val c).isSome || c == '=')
  decodeQuads cleaned

/-- `_b64url_decode` (app.py lines 177-180): pad with `"=" * (-len(data) % 4)`
then `base64.urlsafe_b64decode`.  `(4 - n % 4) % 4` is Python's `-n % 4`. -/
def _b64url_decode (data : String) : Option (List Nat) :=
  let padding := List.replicate ((4 - data.length % 4) % 4) '='
  urlsafe_b64decode (data ++ String.mk padding)

/-- Unpadded base64url encoding of a byte list (how a JWT segment is
produced; not in app.py, stated here as the standard algorithm so that
`_b64url_decode` can be proved a left inverse of it). -/
def b64urlEncode : List Nat → List Char
  | [] => []
  | [x] => [b64Chr (x / 4), b64Chr (x % 4 * 16)]
  | [x, y] => [b64Chr (x / 4), b64Chr (x % 4 * 16 + y / 16), b64Chr (y % 16 * 4)]
  | x :: y :: z :: rest =>
    b64Chr (x / 4) :: b64Chr (x % 4 * 16 + y / 16) :: b64Chr (y % 16 * 4 + z / 64) ::
      b64Chr (z % 64) :: b64urlEncode rest

/-! ## UTF-8 encoding (Python's `str.encode("utf-8")` / `bytes(name, "utf-8")`) -/

def utf8EncodeChar (c : Char) : List Nat :=
  let n := c.toNat
  if n < 128 then [n]
  else if n < 2048 then [192 + n / 64, 128 + n % 64]
  else if n < 65536 then [224 + n / 4096, 128 + n / 64 % 64, 128 + n % 64]
  else [240 + n / 262144, 128 + n / 4096 % 64, 128 + n / 64 % 64, 128 + n % 64]

def utf8Encode (s : String) : List Nat := (s.data.map utf8EncodeChar).flatten

/-! ## Principal resolution (`get_current_principal_id`, app.py lines 182-206)

Inputs of the embedding: the two environment variables, the bearer token
string handed back by the credential, and `oid_of_payload`, which stands for
`json.loads(payload_bytes.decode("utf-8")).get("oid")` restricted to the
truthy case (`some oid` exactly when the decoded JSON object has a truthy
`oid` claim; the JSON/UTF-8 machinery itself is Python stdlib). -/

inductive PrincipalResult where
  /-- The function returns this object id. -/
  | ok (oid : String)
  /-- `binascii.Error` propagated out of `_b64url_decode`. -/
  | decodeError
  /-- The `RuntimeError` raised at app.py lines 203-206. -/
  | noOidError (message : String)
  deriving DecidableEq

def principal_error_message : String :=
  "Could not determine current principal object id (oid) from the access token. Set AZURE_PRINCIPAL_OBJECT_ID (or principal_object_id) to the object id you want to assign roles to."

/-- Python's `a or b` on two optional strings (`""` is falsy). -/
def pyOr (a b : Option String) : Option String :=
  match a with
  | some s => if s = "" then b else some s
  | none => b

/-- The token-claims fallback (app.py lines 195-206). -/
def token_oid_result (oid_of_payload : List Nat → Option String)
    (token : String) : PrincipalResult :=
  let parts := pySplit token '.'
  if 2 ≤ parts.length then
    match _b64url_decode (parts.getD 1 "") with
    | none => .decodeError
    | some payload =>
      match oid_of_payload payload with
      | some oid => .ok oid
      | none => .noOidError principal_error_message
  else .noOidError principal_error_message

/-- `get_current_principal_id`: override env vars first (app.py lines
190-192), then the token's `oid` claim, else the `RuntimeError`. -/
def get_current_principal_id (oid_of_payload : List Nat → Option String)
    (env_azure_principal_object_id env_principal_object_id : Option String)
    (token : String) : PrincipalResult :=
  match pyOr env_azure_principal_object_id env_principal_object_id with
  | some override =>
    if override ≠ "" ∧ pyStrip override ≠ "" then .ok (pyStrip override)
    else token_oid_result oid_of_payload token
  | none => token_oid_result oid_of_payload token

/-! ## SHA-1 and `uuid.uuid5` (used at app.py lines 482 and 525)

`uuid.uuid5(namespace, name)` is SHA-1 of `namespace.bytes + name.encode("utf-8")`,
truncated to 16 bytes with the version nibble forced to 5 and the variant
bits to RFC 4122.  SHA-1 per FIPS 180; 32-bit words are `Nat % 2 ^ 32`. -/

def rotl32 (n x : Nat) : Nat := ((x <<< n) ||| (x >>> (32 - n))) % 2 ^ 32

def sha1F (i b c d : Nat) : Nat :=
  if i < 20 then (b &&& c) ||| ((b ^^^ 0xFFFFFFFF) &&& d)
  else if i < 40 then b ^^^ c ^^^ d
  else if i < 60 then (b &&& c) ||| (b &&& d) ||| (c &&& d)
  else b ^^^ c ^^^ d

def sha1K (i : Nat) : Nat :=
  if i < 20 then 0x5A827999
  else if i < 40 then 0x6ED9EBA1
  else if i < 60 then 0x8F1BBCDC
  else 0xCA62C1D6

/-- Big-endian 4-byte groups to 32-bit words. -/
def toWords : List Nat → List Nat
  | b₁ :: b₂ :: b₃ :: b₄ :: rest => (((b₁ * 256 + b₂) * 256 + b₃) * 256 + b₄) :: toWords rest
  | _ => []

/-- Extend the 16-word schedule by `fuel` further words
(`w[i] = rotl1 (w[i-3] xor w[i-8] xor w[i-14] xor w[i-16])`). -/
def extendWords : Nat → List Nat → List Nat
  | 0, w => w
  | fuel + 1, w =>
    let i := w.length
    extendWords fuel
      (w ++ [rotl32 1 (((w.getD (i - 3) 0 ^^^ w.getD (i - 8) 0) ^^^ w.getD (i - 14) 0) ^^^
        w.getD (i - 16) 0)])

/-- The 80 compression rounds (`fuel` counts remaining rounds, `i` the round
index). -/
def sha1Rounds (w : List Nat) : Nat → Nat → Nat × Nat × Nat × Nat × Nat → Nat × Nat × Nat × Nat × Nat
  | _, 0, st => st
  | i, fuel + 1, (a, b, c, d, e) =>
    let temp := (rotl32 5 a + sha1F i b c d + e + sha1K i + w.getD i 0) % 2 ^ 32
    sha1Rounds w (i + 1) fuel (temp, a, rotl32 30 b, c, d)

def processChunk (st : Nat × Nat × Nat × Nat × Nat) (chunk : List Nat) :
    Nat × Nat × Nat × Nat × Nat :=
  let w := extendWords 64 (toWords chunk)
  let r := sha1Rounds w 0 80 st
  ((st.1 + r.1) % 2 ^ 32, (st.2.1 + r.2.1) % 2 ^ 32, (st.2.2.1 + r.2.2.1) % 2 ^ 32,
    (st.2.2.2.1 + r.2.2.2.1) % 2 ^ 32, (st.2.2.2.2 + r.2.2.2.2) % 2 ^ 32)

def processChunks (st : Nat × Nat × Nat × Nat × Nat) (l : List Nat) :
    Nat × Nat × Nat × Nat × Nat :=
  match l with
  | [] => st
  | b :: rest => processChunks (processChunk st (List.take 64 (b :: rest))) (List.drop 64 (b :: rest))
  termination_by l.length
  decreasing_by simp [List.length_drop]; omega

/-- Big-endian 8-byte encoding of the bit length. -/
def sha1LengthBytes (l : Nat) : List Nat :=
  let bitLen := 8 * l
  [bitLen / 2 ^ 56 % 256, bitLen / 2 ^ 48 % 256, bitLen / 2 ^ 40 % 256, bitLen / 2 ^ 32 % 256,
    bitLen / 2 ^ 24 % 256, bitLen / 2 ^ 16 % 256, bitLen / 2 ^ 8 % 256, bitLen % 256]

/-- Append `0x80`, zero bytes to 56 mod 64, then the 64-bit length. -/
def sha1Pad (msg : List Nat) : List Nat :=
  let l := msg.length
  let zeros := (120 - (l + 1) % 64) % 64
  msg ++ 128 :: (List.replicate zeros 0 ++ sha1LengthBytes l)

def sha1Words (msg : List Nat) : Nat × Nat × Nat × Nat × Nat :=
  processChunks (0x67452301, 0xEFCDAB89, 0x98BADCFE, 0x10325476, 0xC3D2E1F0) (sha1Pad msg)

/-- The 20-byte SHA-1 digest. -/
def sha1Bytes (msg : List Nat) : List Nat :=
  let h := sha1Words msg
  [h.1 / 2 ^ 24 % 256, h.1 / 2 ^ 16 % 256, h.1 / 2 ^ 8 % 256, h.1 % 256,
    h.2.1 / 2 ^ 24 % 256, h.2.1 / 2 ^ 16 % 256, h.2.1 / 2 ^ 8 % 256, h.2.1 % 256,
    h.2.2.1 / 2 ^ 24 % 256, h.2.2.1 / 2 ^ 16 % 256, h.2.2.1 / 2 ^ 8 % 256, h.2.2.1 % 256,
    h.2.2.2.1 / 2 ^ 24 % 256, h.2.2.2.1 / 2 ^ 16 % 256, h.2.2.2.1 / 2 ^ 8 % 256, h.2.2.2.1 % 256,
    h.2.2.2.2 / 2 ^ 24 % 256, h.2.2.2.2 / 2 ^ 16 % 256, h.2.2.2.2 / 2 ^ 8 % 256, h.2.2.2.2 % 256]

/-- The 16 bytes of `uuid.NAMESPACE_URL` (6ba7b811-9dad-11d1-80b4-00c04fd430c8). -/
def NAMESPACE_URL : List Nat :=
  [0x6b, 0xa7, 0xb8, 0x11, 0x9d, 0xad, 0x11, 0xd1, 0x80, 0xb4, 0x00, 0xc0, 0x4f, 0xd4, 0x30, 0xc8]

/-- Force version 5 into byte 6 and the RFC 4122 variant into byte 8. -/
def setVersionVariant : List Nat → List Nat
  | [b₀, b₁, b₂, b₃, b₄, b₅, b₆, b₇, b₈, b₉, b₁₀, b₁₁, b₁₂, b₁₃, b₁₄, b₁₅] =>
    [b₀, b₁, b₂, b₃, b₄, b₅, (b₆ &&& 0x0F) ||| 0x50, b₇, (b₈ &&& 0x3F) ||| 0x80, b₉,
      b₁₀, b₁₁, b₁₂, b₁₃, b₁₄, b₁₅]
  | l => l

/-- The 16 bytes of `uuid.uuid5(namespace, name)`. -/
def uuid5 (namespaceBytes : List Nat) (name : String) : List Nat :=
  setVersionVariant ((sha1Bytes (namespaceBytes ++ utf8Encode name)).take 16)

def hexChr (n : Nat) : Char := "0123456789abcdef".data.getD n '0'

def byteHex (b : Nat) : List Char := [hexChr (b / 16), hexChr (b % 16)]

/-- `str(uuid)`: lowercase hex in 8-4-4-4-12 groups. -/
def uuidToString (bytes : List Nat) : String :=
  match bytes with
  | [b₀, b₁, b₂, b₃, b₄, b₅, b₆, b₇, b₈, b₉, b₁₀, b₁₁, b₁₂, b₁₃, b₁₄, b₁₅] =>
    String.mk (byteHex b₀ ++ byteHex b₁ ++ byteHex b₂ ++ byteHex b₃ ++ '-' ::
      (byteHex b₄ ++ byteHex b₅ ++ '-' :: (byteHex b₆ ++ byteHex b₇ ++ '-' ::
      (byteHex b₈ ++ byteHex b₉ ++ '-' :: (byteHex b₁₀ ++ byteHex b₁₁ ++ byteHex b₁₂ ++
        byteHex b₁₃ ++ byteHex b₁₄ ++ byteHex b₁₅)))))
  | l => String.mk ((l.map byteHex).flatten)

/-- The f-string `f"{scope}|{role_definition_id}|{principal_id}"` hashed by
both RBAC flows (app.py lines 482 and 525). -/
def assignment_seed (scope role_definition_id principal_id : String) : String :=
  scope ++ "|" ++ role_definition_id ++ "|" ++ principal_id

/-- `role_assignment_name` of `create_or_update_azure_rbac_assignment`
(app.py line 482). -/
def role_assignment_name (scope role_definition_id principal_id : String) : String :=
  uuidToString (uuid5 NAMESPACE_URL (assignment_seed scope role_definition_id principal_id))

/-- `role_assignment_id` of `create_or_update_cosmos_role_assignment`
(app.py line 525). -/
def role_assignment_id (assignable_scope role_definition_id principal_id : String) : String :=
  uuidToString (uuid5 NAMESPACE_URL (assignment_seed assignable_scope role_definition_id principal_id))

/-- Big-endian value of a byte list (bridge used to compare digests). -/
def bytesToNat : List Nat → Nat
  | [] => 0
  | b :: rest => b * 256 ^ rest.length + bytesToNat rest

/-! ## Concrete inputs used by witnesses -/

def sample_settings : Settings :=
  { subscription_id := "sub-1", resource_group_name := "rg-1", account_name := "acct-1",
    location := "westus", database_name := "db-1", container_name := "cont-1",
    max_autoscale_throughput := 1000 }

/-- A config map with every required key set and a quoted, padded
`max_autoscale_throughput` of 2000. -/
def c7_env_ok : String → Option String := fun k =>
  if k = "max_autoscale_throughput" then some " \"2000\" "
  else if k ∈ required_keys then some ("v-" ++ k) else none

/-- A config map whose `account_name` is missing. -/
def c7_env_missing : String → Option String := fun k =>
  if k = "account_name" then none
  else if k ∈ required_keys then some "x" else none

def c8_env_not_int : String → Option String := fun k =>
  if k = "max_autoscale_throughput" then some "12x" else some "x"

def c8_env_low : String → Option String := fun k =>
  if k = "max_autoscale_throughput" then some "999" else some "x"

def c8_env_min : String → Option String := fun k =>
  if k = "max_autoscale_throughput" then some "1000" else some "x"

def c8_env_absent : String → Option String := fun k =>
  if k ∈ required_keys then some "x" else none

/-- A concrete account scope, as `get_assignable_scope` would produce. -/
def c2_scope : String :=
  "/subscriptions/sub-1/resourceGroups/rg-1/providers/Microsoft.DocumentDB/databaseAccounts/acct-1"

/-- A concrete full role-definition resource id. -/
def c2_role : String :=
  "/subscriptions/sub-1/providers/Microsoft.Authorization/roleDefinitions/230815da-be43-4aae-9cb4-875f7bd000aa"

/-! # Claims -/

/-! ## C1 — throughput-update arithmetic -/

/-- C1 (counterexample): the claim routes every state whose throughput
settings contain autoscale settings to an autoscale update, taking the
configured default when the current autoscale max reads as absent.  But
`update_throughput` branches on `current_autoscale_max is not None`: with
autoscale settings present whose `max_throughput` is absent and a current
manual throughput of 400, a delta of 100 submits a manual update of 500,
not an autoscale update of `default + 100 = 1100`. -/
theorem c1_counterexample :
    ((some (⟨some ⟨none⟩, some 400⟩ : ThroughputRec)).bind
        (fun r => r.autoscale_settings)).isSome = true ∧
    compute_throughput_update 1000 (some ⟨some ⟨none⟩, some 400⟩) 100 = .manual 500 ∧
    compute_throughput_update 1000 (some ⟨some ⟨none⟩, some 400⟩) 100 ≠ .autoscale (1000 + 100) := by
  refine ⟨rfl, rfl, ?_⟩
  decide

/-- C1 (amended): for every throughput-update call with delta `add`: if the
current settings carry an autoscale max `m` (present and non-`None`), the
submitted new autoscale max is `(m, or the configured default when m = 0) + add`;
otherwise the submitted new manual throughput is the current manual
throughput plus `add`, and exactly `add` itself when the current manual
throughput reads as zero or absent (including the case where autoscale
settings are present but their max is absent). -/
theorem c1_throughput_update_amended :
    (∀ (cfg add m : Int) (res : Option ThroughputRec),
        (res.bind (fun r => r.autoscale_settings)).bind (fun a => a.max_throughput) = some m →
        compute_throughput_update cfg res add = .autoscale ((if m = 0 then cfg else m) + add)) ∧
    (∀ (cfg add : Int) (res : Option ThroughputRec),
        (res.bind (fun r => r.autoscale_settings)).bind (fun a => a.max_throughput) = none →
        (res.bind (fun r => r.throughput)).getD 0 = 0 →
        compute_throughput_update cfg res add = .manual add) ∧
    (∀ (cfg add t : Int) (res : Option ThroughputRec),
        (res.bind (fun r => r.autoscale_settings)).bind (fun a => a.max_throughput) = none →
        res.bind (fun r => r.throughput) = some t → t ≠ 0 →
        compute_throughput_update cfg res add = .manual (t + add)) := by
  refine ⟨?_, ?_, ?_⟩
  · intro cfg add m res hm
    simp only [compute_throughput_update, hm]
  · intro cfg add res hm hz
    simp only [compute_throughput_update, hm]
    cases ht : res.bind (fun r => r.throughput) with
    | none => simp
    | some t =>
      rw [ht] at hz
      simp only [Option.getD_some] at hz
      simp [hz]
  · intro cfg add t res hm ht htz
    simp only [compute_throughput_update, hm, ht]
    simp [htz]

/-- C1 (witness): the spec's own examples — current autoscale max 4000 and
delta 1000 submits autoscale 5000; current manual throughput 0 and delta
1000 submits manual 1000; current manual 400, delta 100 submits 500. -/
theorem c1_witness :
    compute_throughput_update 1000 (some ⟨some ⟨some 4000⟩, none⟩) 1000 = .autoscale 5000 ∧
    compute_throughput_update 1000 (some ⟨none, some 0⟩) 1000 = .manual 1000 ∧
    compute_throughput_update 1000 (some ⟨none, some 400⟩) 100 = .manual 500 := by
  refine ⟨?_, ?_, ?_⟩
  · have h := c1_throughput_update_amended.1 1000 1000 4000 (some ⟨some ⟨some 4000⟩, none⟩) (by decide)
    simpa using h
  · have h := c1_throughput_update_amended.2.1 1000 1000 (some ⟨none, some 0⟩) (by decide) (by decide)
    simpa using h
  · have h := c1_throughput_update_amended.2.2 1000 100 400 (some ⟨none, some 400⟩)
      (by decide) (by decide) (by decide)
    simpa using h

/-! ## C3 — the delete confirmation gate -/

/-- C3 (counterexample): the delete operation is dispatched without the
operator ever typing the literal "DELETE": selecting "1" (full sample) with
`COSMOS_SAMPLE_DELETE_ACCOUNT=true` runs the account delete even though the
confirmation input (never prompted on this path) is not "DELETE". -/
theorem c3_counterexample :
    ("" : String) ≠ "DELETE" ∧
    Op.deleteAccount ∈ menu_step_ops "1" "" "" (some "true") := by
  refine ⟨by decide, by decide⟩

/-- C3 (amended): the delete operation is dispatched by a menu step exactly
when either the delete action (selection "8") is chosen and the stripped
confirmation input is the literal "DELETE", or the full sample (selection
"1") is chosen and the `COSMOS_SAMPLE_DELETE_ACCOUNT` environment variable
lowercases to "true"; every other operator input dispatches no delete. -/
theorem c3_delete_gate_amended :
    ∀ (selection delta_input confirm_input : String) (env_delete_account : Option String),
      Op.deleteAccount ∈ menu_step_ops selection delta_input confirm_input env_delete_account ↔
        ((pyLower (pyStrip selection) = "8" ∧ pyStrip (pyStrip confirm_input) = "DELETE") ∨
         (pyLower (pyStrip selection) = "1" ∧ pyLower (env_delete_account.getD "") = "true")) := by
  intro selection delta_input confirm_input env_delete_account
  by_cases h1 : pyLower (pyStrip selection) = "1"
  · by_cases hc : pyLower (env_delete_account.getD "") = "true" <;>
      simp [menu_step_ops, run_full_sample_ops, h1, hc]
  · by_cases h8 : pyLower (pyStrip selection) = "8"
    · by_cases hd : pyStrip (pyStrip confirm_input) = "DELETE" <;>
        simp [menu_step_ops, h8, h1, hd]
    · simp only [menu_step_ops, h1, h8]
      split_ifs <;> (try cases hp : parseIntPy (pyStrip delta_input)) <;> simp_all

/-! ## C4 — not-found throughput read -/

/-- C4: when the throughput read fails with status 404, `update_throughput`
fails with the specific "no dedicated throughput" error (serverless or
database-level throughput); any other read failure propagates as the
original HTTP error, which is a distinct error value. -/
theorem c4_no_dedicated_throughput :
    (∀ cfg add : Int,
        update_throughput cfg (.error (some 404)) add = .error .noDedicatedThroughput) ∧
    (∀ (cfg add : Int) (status : Option Nat), status ≠ some 404 →
        update_throughput cfg (.error status) add = .error (.httpError status)) ∧
    (∀ status : Option Nat, ThroughputError.httpError status ≠ .noDedicatedThroughput) := by
  refine ⟨fun cfg add => rfl, ?_, fun status => by simp⟩
  intro cfg add status h
  simp [update_throughput, h]

/-- C4 (witness): a read failure with status 500, and one with no status
attribute at all, each propagate as the generic HTTP error. -/
theorem c4_witness :
    update_throughput 1000 (.error (some 500)) 1000 = .error (.httpError (some 500)) ∧
    update_throughput 1000 (.error none) 1000 = .error (.httpError none) := by
  exact ⟨c4_no_dedicated_throughput.2.1 1000 1000 (some 500) (by decide),
    c4_no_dedicated_throughput.2.1 1000 1000 none (by decide)⟩

/-! ## C5 — scope nesting -/

lemma string_ext {a b : String} (h : a.data = b.data) : a = b := by
  cases a; cases b; exact congrArg String.mk h

lemma listBegins_append (l t : List Char) : listBegins l (l ++ t) = true := by
  induction l with
  | nil => rfl
  | cons c cs ih => simp [listBegins, ih]

lemma strBeginsStrict_of_append (a t : String) (ht : t.data ≠ []) :
    strBeginsStrict a (a ++ t) = true := by
  have hd : (a ++ t).data = a.data ++ t.data := String.data_append a t
  simp only [strBeginsStrict, strBegins, hd, listBegins_append, Bool.true_and,
    decide_eq_true_eq, List.length_append]
  have hpos : 0 < t.data.length := List.length_pos.mpr ht
  omega

/-- C5 (counterexample): on concrete settings, the resolver's output for
kind "Subscription" is not a prefix of its output for kind "ResourceGroup"
(the mapping has no "Subscription" entry — that kind silently falls back to
the longer Account scope), so the claimed five-scope prefix chain fails at
its innermost link. -/
theorem c5_counterexample :
    strBegins (get_assignable_scope sample_settings "Subscription")
      (get_assignable_scope sample_settings "ResourceGroup") = false := by
  decide

/-- C5 (amended): for fixed settings the resolver is a pure function
(calling it twice with the same kind yields an identical string), and the
scope strings nest as strict string prefixes along the chain the code
actually defines: ResourceGroup ⊂ Account ⊂ Database ⊂ Container, with the
subscription path string (used elsewhere in the sample) a strict prefix of
the ResourceGroup scope; the resolver itself maps "Subscription" to the
Account scope. -/
theorem c5_scope_nesting_amended :
    ∀ s : Settings,
      (∀ kind : String, get_assignable_scope s kind = get_assignable_scope s kind) ∧
      strBeginsStrict (subscription_scope s) (get_assignable_scope s "ResourceGroup") = true ∧
      strBeginsStrict (get_assignable_scope s "ResourceGroup")
        (get_assignable_scope s "Account") = true ∧
      strBeginsStrict (get_assignable_scope s "Account")
        (get_assignable_scope s "Database") = true ∧
      strBeginsStrict (get_assignable_scope s "Database")
        (get_assignable_scope s "Container") = true ∧
      get_assignable_scope s "Subscription" = get_assignable_scope s "Account" := by
  intro s
  refine ⟨fun _ => rfl, ?_, ?_, ?_, ?_, rfl⟩
  · have he : get_assignable_scope s "ResourceGroup" =
        subscription_scope s ++ ("/resourceGroups/" ++ s.resource_group_name) := by
      apply string_ext
      simp [get_assignable_scope, subscription_scope, String.data_append, List.append_assoc]
    rw [he]
    apply strBeginsStrict_of_append
    simp [String.data_append]
  · have he : get_assignable_scope s "Account" =
        get_assignable_scope s "ResourceGroup" ++
          ("/providers/Microsoft.DocumentDB/databaseAccounts/" ++ s.account_name) := by
      apply string_ext
      simp [get_assignable_scope, String.data_append, List.append_assoc]
    rw [he]
    apply strBeginsStrict_of_append
    simp [String.data_append]
  · have he : get_assignable_scope s "Database" =
        get_assignable_scope s "Account" ++ ("/dbs/" ++ s.database_name) := by
      apply string_ext
      simp [get_assignable_scope, String.data_append, List.append_assoc]
    rw [he]
    apply strBeginsStrict_of_append
    simp [String.data_append]
  · have he : get_assignable_scope s "Container" =
        get_assignable_scope s "Database" ++ ("/colls/" ++ s.container_name) := by
      apply string_ext
      simp [get_assignable_scope, String.data_append, List.append_assoc]
    rw [he]
    apply strBeginsStrict_of_append
    simp [String.data_append]

/-! ## C6 — unknown scope kind falls back to the Account scope -/

/-- C6: for every kind string other than the four mapping keys
"ResourceGroup", "Account", "Database" and "Container", the scope resolver
returns the Account scope (silent fallback, no error). -/
theorem c6_unknown_scope_fallback :
    ∀ (s : Settings) (kind : String),
      kind ≠ "ResourceGroup" → kind ≠ "Account" → kind ≠ "Database" → kind ≠ "Container" →
      get_assignable_scope s kind = get_assignable_scope s "Account" := by
  intro s kind h1 h2 h3 h4
  simp [get_assignable_scope, h1, h2, h3, h4]

/-- C6 (witness): "Subscription" (the kind the mapping does not know) and an
arbitrary junk kind both resolve to the Account scope. -/
theorem c6_witness :
    get_assignable_scope sample_settings "Subscription" =
      get_assignable_scope sample_settings "Account" ∧
    get_assignable_scope sample_settings "Bogus" =
      get_assignable_scope sample_settings "Account" :=
  ⟨c6_unknown_scope_fallback sample_settings "Subscription"
      (by decide) (by decide) (by decide) (by decide),
    c6_unknown_scope_fallback sample_settings "Bogus"
      (by decide) (by decide) (by decide) (by decide)⟩

/-! ## C7 — the configuration loader -/

lemma filter_isNone_eq_nil (env : String → Option String) (l : List String)
    (h : l.all (fun k => (clean (env k)).isSome) = true) :
    l.filter (fun k => (clean (env k)).isNone) = [] := by
  induction l with
  | nil => rfl
  | cons k ks ih =>
    rw [List.all_cons, Bool.and_eq_true] at h
    rw [List.filter_cons]
    have hk : (clean (env k)).isNone = false := by
      cases hc : clean (env k) with
      | none => rw [hc] at h; simp at h
      | some v => simp
    simp [hk, ih h.2]

/-- C7: a config map with every required key present and non-empty (after
stripping/unquoting) and a valid throughput value loads into a `Settings`
record whose fields are exactly the cleaned values of the recognized keys;
a config map with missing (or empty-after-cleaning) required keys fails
with a configuration error carrying exactly the missing keys. -/
theorem c7_load_config :
    (∀ env : String → Option String,
        required_keys.all (fun k => (clean (env k)).isSome) = true →
        throughput_config_ok env = true →
        load_config env = .ok {
          subscription_id := (clean (env "subscription_id")).getD ""
          resource_group_name := (clean (env "resource_group_name")).getD ""
          account_name := (clean (env "account_name")).getD ""
          location := (clean (env "location")).getD ""
          database_name := (clean (env "database_name")).getD ""
          container_name := (clean (env "container_name")).getD ""
          max_autoscale_throughput := configured_max env }) ∧
    (∀ env : String → Option String,
        required_keys.filter (fun k => (clean (env k)).isNone) ≠ [] →
        load_config env = .error (.missingKeys
          (required_keys.filter (fun k => (clean (env k)).isNone)))) := by
  constructor
  · intro env hall hok
    have hfil := filter_isNone_eq_nil env required_keys hall
    simp only [load_config, hfil, ne_eq, not_true_eq_false, if_false]
    cases hc : clean (env "max_autoscale_throughput") with
    | none =>
      simp [configured_max, hc]
    | some raw =>
      cases hp : parseIntPy raw with
      | none =>
        simp only [throughput_config_ok, hc, hp] at hok
        exact absurd hok (by decide)
      | some v =>
        simp only [throughput_config_ok, hc, hp, decide_eq_true_eq] at hok
        have hnl : ¬(v < 1000) := by omega
        simp [hp, hnl, configured_max, hc]
  · intro env hne
    simp only [load_config]
    rw [if_pos hne]

/-- C7 (witness): a concrete valid config (with a quoted, space-padded
throughput of 2000) loads with the cleaned field values, and a concrete
config missing `account_name` fails naming exactly that key. -/
theorem c7_witness :
    load_config c7_env_ok = .ok {
      subscription_id := (clean (c7_env_ok "subscription_id")).getD ""
      resource_group_name := (clean (c7_env_ok "resource_group_name")).getD ""
      account_name := (clean (c7_env_ok "account_name")).getD ""
      location := (clean (c7_env_ok "location")).getD ""
      database_name := (clean (c7_env_ok "database_name")).getD ""
      container_name := (clean (c7_env_ok "container_name")).getD ""
      max_autoscale_throughput := configured_max c7_env_ok } ∧
    load_config c7_env_missing = .error (.missingKeys
      (required_keys.filter (fun k => (clean (c7_env_missing k)).isNone))) := by
  exact ⟨c7_load_config.1 c7_env_ok (by decide) (by decide),
    c7_load_config.2 c7_env_missing (by decide)⟩

/-! ## C8 — `max_autoscale_throughput` validation -/

/-- C8: a configured `max_autoscale_throughput` that does not parse as an
integer always makes `load_config` fail, as does an integer value strictly
below 1000; with the required keys present, a value of 1000 or more loads
and is stored exactly, and an absent key loads with the default 1000. -/
theorem c8_max_autoscale_validation :
    (∀ (env : String → Option String) (raw : String),
        clean (env "max_autoscale_throughput") = some raw → parseIntPy raw = none →
        ∃ e, load_config env = .error e) ∧
    (∀ (env : String → Option String) (raw : String) (v : Int),
        clean (env "max_autoscale_throughput") = some raw → parseIntPy raw = some v →
        v < 1000 →
        ∃ e, load_config env = .error e) ∧
    (∀ (env : String → Option String) (raw : String) (v : Int),
        required_keys.all (fun k => (clean (env k)).isSome) = true →
        clean (env "max_autoscale_throughput") = some raw → parseIntPy raw = some v →
        1000 ≤ v →
        ∃ st, load_config env = .ok st ∧ st.max_autoscale_throughput = v) ∧
    (∀ env : String → Option String,
        required_keys.all (fun k => (clean (env k)).isSome) = true →
        clean (env "max_autoscale_throughput") = none →
        ∃ st, load_config env = .ok st ∧ st.max_autoscale_throughput = 1000) := by
  refine ⟨?_, ?_, ?_, ?_⟩
  · intro env raw hc hp
    by_cases hm : required_keys.filter (fun k => (clean (env k)).isNone) = []
    · refine ⟨.throughputNotInt, ?_⟩
      simp [load_config, hm, hc, hp]
    · exact ⟨.missingKeys _, by simp only [load_config]; rw [if_pos hm]⟩
  · intro env raw v hc hp hv
    by_cases hm : required_keys.filter (fun k => (clean (env k)).isNone) = []
    · refine ⟨.throughputTooSmall, ?_⟩
      simp [load_config, hm, hc, hp, hv]
    · exact ⟨.missingKeys _, by simp only [load_config]; rw [if_pos hm]⟩
  · intro env raw v hall hc hp hv
    refine ⟨_, c7_load_config.1 env hall ?_, ?_⟩
    · simp [throughput_config_ok, hc, hp, hv]
    · simp [configured_max, hc, hp]
  · intro env hall hc
    refine ⟨_, c7_load_config.1 env hall ?_, ?_⟩
    · simp [throughput_config_ok, hc]
    · simp [configured_max, hc]

/-- C8 (witness): concrete configs exercising all four cases — "12x" fails,
"999" fails, "1000" loads storing 1000, an absent key loads with 1000. -/
theorem c8_witness :
    (∃ e, load_config c8_env_not_int = .error e) ∧
    (∃ e, load_config c8_env_low = .error e) ∧
    (∃ st, load_config c8_env_min = .ok st ∧ st.max_autoscale_throughput = 1000) ∧
    (∃ st, load_config c8_env_absent = .ok st ∧ st.max_autoscale_throughput = 1000) := by
  exact ⟨c8_max_autoscale_validation.1 c8_env_not_int "12x" (by decide) (by decide),
    c8_max_autoscale_validation.2.1 c8_env_low "999" 999 (by decide) (by decide) (by decide),
    c8_max_autoscale_validation.2.2.1 c8_env_min "1000" 1000 (by decide) (by decide) (by decide)
      (by decide),
    c8_max_autoscale_validation.2.2.2 c8_env_absent (by decide) (by decide)⟩

/-! ## C9 — principal resolution order and failure -/

/-- C9: principal resolution tries the explicit environment override first —
when the override (under Python `or` of the two variables) is set and
non-blank its stripped value is returned, whatever the token holds — and
otherwise falls back to decoding the second `.`-separated segment of the
bearer token and reading the `oid` claim; when the token has no second
segment, or its payload decodes but carries no usable `oid`, the operation
fails with the `RuntimeError` whose message names `AZURE_PRINCIPAL_OBJECT_ID`. -/
theorem c9_principal_resolution :
    (∀ (oid_of_payload : List Nat → Option String) (envA envB : Option String)
        (token o : String),
        pyOr envA envB = some o → pyStrip o ≠ "" →
        get_current_principal_id oid_of_payload envA envB token = .ok (pyStrip o)) ∧
    (∀ (oid_of_payload : List Nat → Option String) (envA envB : Option String)
        (token : String),
        pyOr envA envB = none →
        get_current_principal_id oid_of_payload envA envB token =
          token_oid_result oid_of_payload token) ∧
    (∀ (oid_of_payload : List Nat → Option String) (envA envB : Option String)
        (token o : String),
        pyOr envA envB = some o → pyStrip o = "" →
        get_current_principal_id oid_of_payload envA envB token =
          token_oid_result oid_of_payload token) ∧
    (∀ (oid_of_payload : List Nat → Option String) (token oid : String)
        (payload : List Nat),
        2 ≤ (pySplit token '.').length →
        _b64url_decode ((pySplit token '.').getD 1 "") = some payload →
        oid_of_payload payload = some oid →
        token_oid_result oid_of_payload token = .ok oid) ∧
    (∀ (oid_of_payload : List Nat → Option String) (token : String),
        (pySplit token '.').length < 2 →
        token_oid_result oid_of_payload token = .noOidError principal_error_message) ∧
    (∀ (oid_of_payload : List Nat → Option String) (token : String) (payload : List Nat),
        2 ≤ (pySplit token '.').length →
        _b64url_decode ((pySplit token '.').getD 1 "") = some payload →
        oid_of_payload payload = none →
        token_oid_result oid_of_payload token = .noOidError principal_error_message) ∧
    strContainsSub principal_error_message "AZURE_PRINCIPAL_OBJECT_ID" = true := by
  refine ⟨?_, ?_, ?_, ?_, ?_, ?_, ?_⟩
  · intro oid_of_payload envA envB token o ho hs
    have hne : o ≠ "" := by
      intro h
      exact hs (by rw [h]; rfl)
    simp [get_current_principal_id, ho, hne, hs]
  · intro oid_of_payload envA envB token ho
    simp [get_current_principal_id, ho]
  · intro oid_of_payload envA envB token o ho hs
    simp [get_current_principal_id, ho, hs]
  · intro oid_of_payload token oid payload hlen hdec hoid
    simp only [List.getD_eq_getElem?_getD] at hdec
    simp [token_oid_result, hlen, hdec, hoid]
  · intro oid_of_payload token hlen
    have h2 : ¬(2 ≤ (pySplit token '.').length) := by omega
    simp [token_oid_result, h2]
  · intro oid_of_payload token payload hlen hdec hoid
    simp only [List.getD_eq_getElem?_getD] at hdec
    simp [token_oid_result, hlen, hdec, hoid]
  · set_option maxRecDepth 16384 in decide

/-- C9 (witness): a set, padded override resolves to its stripped value with
the token never consulted (the claim-yielding function is irrelevant); a
token with no second segment, and one whose payload has no `oid` claim,
each fail with the message naming the override variable; a payload with an
`oid` claim resolves to it. -/
theorem c9_witness :
    get_current_principal_id (fun _ => none) (some " abc ") none "whatever" = .ok "abc" ∧
    token_oid_result (fun _ => none) "tokenwithnodot" = .noOidError principal_error_message ∧
    token_oid_result (fun _ => none) "x.aGVsbG8" = .noOidError principal_error_message ∧
    token_oid_result (fun _ => some "oid-1") "x.aGVsbG8" = .ok "oid-1" := by
  refine ⟨?_, ?_, ?_, ?_⟩
  · have h := c9_principal_resolution.1 (fun _ => none) (some " abc ") none "whatever" " abc "
      (by decide) (by decide)
    simpa using h
  · exact c9_principal_resolution.2.2.2.2.1 (fun _ => none) "tokenwithnodot" (by decide)
  · exact c9_principal_resolution.2.2.2.2.2.1 (fun _ => none) "x.aGVsbG8"
      [104, 101, 108, 108, 111] (by decide) (by decide) (by decide)
  · exact c9_principal_resolution.2.2.2.1 (fun _ => some "oid-1") "x.aGVsbG8" "oid-1"
      [104, 101, 108, 108, 111] (by decide) (by decide) (by decide)

/-! ## C10 — `_b64url_decode` inverts unpadded base64url encoding -/

lemma b64Val_translate_b64Chr : ∀ v < 64, b64Val (translateUrl (b64Chr v)) = some v := by
  decide

lemma translate_b64Chr_ne_pad : ∀ v < 64, translateUrl (b64Chr v) ≠ '=' := by
  decide

lemma decodeQuads_filter_encode (b : List Nat) (hb : ∀ x ∈ b, x < 256) :
    decodeQuads (((b64urlEncode b).map translateUrl ++
        List.replicate ((4 - (b64urlEncode b).length % 4) % 4) '=').filter
      (fun c => (b64Val c).isSome || c == '=')) = some b := by
  match b with
  | [] => rfl
  | [x] =>
    have hx := hb x (by simp)
    have e₁ := b64Val_translate_b64Chr (x / 4) (by omega)
    have e₂ := b64Val_translate_b64Chr (x % 4 * 16) (by omega)
    simp only [b64urlEncode, List.map_cons, List.map_nil, List.length_cons, List.length_nil,
      List.cons_append, List.nil_append]
    norm_num [List.filter_cons, e₁, e₂, decodeQuads]
    omega
  | [x, y] =>
    have hx := hb x (by simp)
    have hy := hb y (by simp)
    have e₁ := b64Val_translate_b64Chr (x / 4) (by omega)
    have e₂ := b64Val_translate_b64Chr (x % 4 * 16 + y / 16) (by omega)
    have e₃ := b64Val_translate_b64Chr (y % 16 * 4) (by omega)
    have n₃ := translate_b64Chr_ne_pad (y % 16 * 4) (by omega)
    simp only [b64urlEncode, List.map_cons, List.map_nil, List.length_cons, List.length_nil,
      List.cons_append, List.nil_append]
    norm_num [List.filter_cons, e₁, e₂, e₃, decodeQuads, n₃]
    constructor <;> omega
  | x :: y :: z :: rest =>
    have hx := hb x (by simp)
    have hy := hb y (by simp)
    have hz := hb z (by simp)
    have ih := decodeQuads_filter_encode rest (fun t ht => hb t (by simp [ht]))
    have e₁ := b64Val_translate_b64Chr (x / 4) (by omega)
    have e₂ := b64Val_translate_b64Chr (x % 4 * 16 + y / 16) (by omega)
    have e₃ := b64Val_translate_b64Chr (y % 16 * 4 + z / 64) (by omega)
    have e₄ := b64Val_translate_b64Chr (z % 64) (by omega)
    have n₃ := translate_b64Chr_ne_pad (y % 16 * 4 + z / 64) (by omega)
    have n₄ := translate_b64Chr_ne_pad (z % 64) (by omega)
    have hlen : (4 - (b64urlEncode (x :: y :: z :: rest)).length % 4) % 4 =
        (4 - (b64urlEncode rest).length % 4) % 4 := by
      simp only [b64urlEncode, List.length_cons]
      omega
    rw [hlen]
    simp only [b64urlEncode, List.map_cons, List.cons_append]
    simp only [List.filter_cons, e₁, e₂, e₃, e₄, Option.isSome_some, Bool.true_or, if_pos]
    simp only [decodeQuads, e₁, e₂, e₃, e₄, n₃, n₄, if_neg, ih]
    have b₁ : x / 4 * 4 + (x % 4 * 16 + y / 16) / 16 = x := by omega
    have b₂ : (x % 4 * 16 + y / 16) % 16 * 16 + (y % 16 * 4 + z / 64) / 4 = y := by omega
    have b₃ : (y % 16 * 4 + z / 64) % 4 * 64 + z % 64 = z := by omega
    simp [b₁, b₂, b₃]

lemma b64url_decode_mk (l : List Char) :
    _b64url_decode (String.mk l) =
      decodeQuads ((l.map translateUrl ++ List.replicate ((4 - l.length % 4) % 4) '=').filter
        (fun c => (b64Val c).isSome || c == '=')) := by
  simp only [_b64url_decode, urlsafe_b64decode, String.data_append]
  rw [List.map_append, List.map_replicate]
  rw [show translateUrl '=' = '=' from rfl]
  rfl

/-- C10: `_b64url_decode` is a left inverse of unpadded base64url encoding —
for every byte string `b`, decoding the unpadded encoding of `b` returns
`b` (the appended `"=" * (-len % 4)` padding completes the final group),
and decoding the already-padded encoding returns `b` as well, so a validly
encoded JWT segment decodes whether or not its padding was stripped. -/
theorem c10_b64url_left_inverse :
    ∀ b : List Nat, (∀ x ∈ b, x < 256) →
      _b64url_decode (String.mk (b64urlEncode b)) = some b ∧
      _b64url_decode (String.mk (b64urlEncode b ++
        List.replicate ((4 - (b64urlEncode b).length % 4) % 4) '=')) = some b := by
  intro b hb
  have key := decodeQuads_filter_encode b hb
  constructor
  · rw [b64url_decode_mk]
    exact key
  · have hpadlen : ((4 : Nat) -
        (b64urlEncode b ++ List.replicate ((4 - (b64urlEncode b).length % 4) % 4) '=').length
          % 4) % 4 = 0 := by
      simp only [List.length_append, List.length_replicate]
      omega
    rw [b64url_decode_mk, hpadlen, List.replicate_zero, List.append_nil, List.map_append,
      List.map_replicate, show translateUrl '=' = '=' from rfl]
    exact key

/-- C10 (witness): the bytes of "hello" survive the round trip, unpadded
and padded. -/
theorem c10_witness :
    _b64url_decode (String.mk (b64urlEncode [104, 101, 108, 108, 111])) =
      some [104, 101, 108, 108, 111] ∧
    _b64url_decode "aGVsbG8" = some [104, 101, 108, 108, 111] := by
  refine ⟨(c10_b64url_left_inverse [104, 101, 108, 108, 111] (by decide)).1, by decide⟩

/-! ## C2 — deterministic role-assignment identifiers -/

lemma seed_ne_of_scope_ne {s s' r p : String} (h : s ≠ s') :
    assignment_seed s r p ≠ assignment_seed s' r p := by
  intro he
  apply h
  have hd := congrArg String.data he
  simp only [assignment_seed, String.data_append] at hd
  exact string_ext
    (List.append_cancel_right (List.append_cancel_right
      (List.append_cancel_right (List.append_cancel_right hd))))

lemma seed_ne_of_role_ne {s r r' p : String} (h : r ≠ r') :
    assignment_seed s r p ≠ assignment_seed s r' p := by
  intro he
  apply h
  have hd := congrArg String.data he
  simp only [assignment_seed, String.data_append] at hd
  exact string_ext
    (List.append_cancel_left (List.append_cancel_right (List.append_cancel_right hd)))

lemma seed_ne_of_principal_ne {s r p p' : String} (h : p ≠ p') :
    assignment_seed s r p ≠ assignment_seed s r p' := by
  intro he
  apply h
  have hd := congrArg String.data he
  simp only [assignment_seed, String.data_append] at hd
  exact string_ext (List.append_cancel_left hd)

lemma bytesToNat_lt : ∀ l : List Nat, (∀ b ∈ l, b < 256) → bytesToNat l < 256 ^ l.length := by
  intro l
  induction l with
  | nil => intro _; simp [bytesToNat]
  | cons b t ih =>
    intro h
    have hb := h b (by simp)
    have ht := ih (fun x hx => h x (by simp [hx]))
    simp only [bytesToNat, List.length_cons, pow_succ]
    calc b * 256 ^ t.length + bytesToNat t < (b + 1) * 256 ^ t.length := by
          simp only [Nat.add_mul, Nat.one_mul]
          omega
      _ ≤ 256 * 256 ^ t.length := Nat.mul_le_mul_right _ (by omega)
      _ = 256 ^ t.length * 256 := Nat.mul_comm _ _

lemma bytesToNat_inj : ∀ l₁ l₂ : List Nat, l₁.length = l₂.length →
    (∀ b ∈ l₁, b < 256) → (∀ b ∈ l₂, b < 256) →
    bytesToNat l₁ = bytesToNat l₂ → l₁ = l₂ := by
  intro l₁
  induction l₁ with
  | nil =>
    intro l₂ hl _ _ _
    cases l₂ with
    | nil => rfl
    | cons c u => simp at hl
  | cons b t ih =>
    intro l₂ hl h₁ h₂ he
    cases l₂ with
    | nil => simp at hl
    | cons c u =>
      simp only [List.length_cons] at hl
      have hlen : t.length = u.length := by omega
      simp only [bytesToNat, hlen] at he
      have hbt := bytesToNat_lt t (fun x hx => h₁ x (by simp [hx]))
      have hbu := bytesToNat_lt u (fun x hx => h₂ x (by simp [hx]))
      rw [hlen] at hbt
      have hK : 0 < 256 ^ u.length := Nat.pos_pow_of_pos _ (by omega)
      have hdiv : ∀ a x : Nat, x < 256 ^ u.length →
          (a * 256 ^ u.length + x) / 256 ^ u.length = a := by
        intro a x hx
        rw [Nat.mul_comm a (256 ^ u.length), Nat.mul_add_div hK, Nat.div_eq_of_lt hx,
          Nat.add_zero]
      have hbc : b = c := by
        have h₁' := hdiv b (bytesToNat t) hbt
        have h₂' := hdiv c (bytesToNat u) hbu
        rw [← h₁', ← h₂', he]
      rw [hbc] at he
      have htu : bytesToNat t = bytesToNat u := Nat.add_left_cancel he
      rw [hbc, ih u hlen (fun x hx => h₁ x (by simp [hx])) (fun x hx => h₂ x (by simp [hx])) htu]

lemma uuid5_length (ns : List Nat) (name : String) : (uuid5 ns name).length = 16 := rfl

lemma uuid5_lt (ns : List Nat) (name : String) : ∀ x ∈ uuid5 ns name, x < 256 := by
  have hlow : ∀ a : Nat, a ≤ 15 → a ||| 80 < 256 := by decide
  have hhigh : ∀ a : Nat, a ≤ 63 → a ||| 128 < 256 := by decide
  intro x hx
  simp only [uuid5, sha1Bytes, setVersionVariant, List.take, List.mem_cons,
    List.not_mem_nil, or_false] at hx
  rcases hx with h | h | h | h | h | h | h | h | h | h | h | h | h | h | h | h <;> subst h <;>
    first
      | exact hlow _ Nat.and_le_right
      | exact hhigh _ Nat.and_le_right
      | exact Nat.mod_lt _ (by omega)

/-- C2 (counterexample): the claim "changing any one of the three inputs
changes the identifier" cannot hold of the code: the assignment identifier
is `str(uuid5(...))`, a function into the finite space of 16-byte UUID
values, while principal ids range over infinitely many strings, so — for
any fixed scope and role — two distinct principal ids must collide on the
identifier (pigeonhole over SHA-1 truncated to the UUID bytes). -/
theorem c2_counterexample :
    ∃ p₁ p₂ : String, p₁ ≠ p₂ ∧
      role_assignment_id c2_scope c2_role p₁ = role_assignment_id c2_scope c2_role p₂ := by
  have hbound : ∀ n : Nat, bytesToNat (uuid5 NAMESPACE_URL
      (assignment_seed c2_scope c2_role (String.mk (List.replicate n 'a')))) < 2 ^ 128 := by
    intro n
    have h := bytesToNat_lt _ (uuid5_lt NAMESPACE_URL
      (assignment_seed c2_scope c2_role (String.mk (List.replicate n 'a'))))
    rw [uuid5_length] at h
    calc bytesToNat _ < 256 ^ 16 := h
      _ = 2 ^ 128 := by norm_num
  obtain ⟨n, m, hnm, hf⟩ := Finite.exists_ne_map_eq_of_infinite
    (fun n : Nat => (⟨bytesToNat (uuid5 NAMESPACE_URL
      (assignment_seed c2_scope c2_role (String.mk (List.replicate n 'a')))),
      hbound n⟩ : Fin (2 ^ 128)))
  refine ⟨String.mk (List.replicate n 'a'), String.mk (List.replicate m 'a'), ?_, ?_⟩
  · intro h
    apply hnm
    have := congrArg (fun s : String => s.data.length) h
    simpa using this
  · have hval : bytesToNat (uuid5 NAMESPACE_URL
        (assignment_seed c2_scope c2_role (String.mk (List.replicate n 'a')))) =
        bytesToNat (uuid5 NAMESPACE_URL
          (assignment_seed c2_scope c2_role (String.mk (List.replicate m 'a')))) :=
      congrArg Fin.val hf
    have hbytes := bytesToNat_inj _ _ (by rw [uuid5_length, uuid5_length])
      (uuid5_lt _ _) (uuid5_lt _ _) hval
    exact congrArg uuidToString hbytes

/-- C2 (amended): the assignment identifier is a deterministic function of
(scope, role definition id, principal id), computed by the identical
`uuid5` derivation in the control-plane and the data-plane flow — equal
triples give equal identifiers in both — and changing any one of the three
inputs changes the hashed seed string `scope|role|principal` from which the
identifier is derived (identifier distinctness itself holds only up to
collisions of the underlying truncated SHA-1). -/
theorem c2_assignment_id_amended :
    (∀ scope role_definition_id principal_id : String,
        role_assignment_name scope role_definition_id principal_id =
          role_assignment_id scope role_definition_id principal_id) ∧
    (∀ s₁ r₁ p₁ s₂ r₂ p₂ : String, s₁ = s₂ → r₁ = r₂ → p₁ = p₂ →
        role_assignment_id s₁ r₁ p₁ = role_assignment_id s₂ r₂ p₂) ∧
    (∀ s s' r p : String, s ≠ s' → assignment_seed s r p ≠ assignment_seed s' r p) ∧
    (∀ s r r' p : String, r ≠ r' → assignment_seed s r p ≠ assignment_seed s r' p) ∧
    (∀ s r p p' : String, p ≠ p' → assignment_seed s r p ≠ assignment_seed s r p') := by
  refine ⟨fun _ _ _ => rfl, ?_, ?_, ?_, ?_⟩
  · intro s₁ r₁ p₁ s₂ r₂ p₂ hs hr hp
    rw [hs, hr, hp]
  · intro s s' r p h
    exact seed_ne_of_scope_ne h
  · intro s r r' p h
    exact seed_ne_of_role_ne h
  · intro s r p p' h
    exact seed_ne_of_principal_ne h

/-- C2 (witness): on concrete inputs, the two flows agree, and changing the
scope, the role or the principal alone changes the hashed seed. -/
theorem c2_witness :
    role_assignment_name "sc" "ro" "pr" = role_assignment_id "sc" "ro" "pr" ∧
    assignment_seed "sc1" "ro" "pr" ≠ assignment_seed "sc2" "ro" "pr" ∧
    assignment_seed "sc" "ro1" "pr" ≠ assignment_seed "sc" "ro2" "pr" ∧
    assignment_seed "sc" "ro" "pr1" ≠ assignment_seed "sc" "ro" "pr2" := by
  exact ⟨c2_assignment_id_amended.1 "sc" "ro" "pr",
    c2_assignment_id_amended.2.2.1 "sc1" "sc2" "ro" "pr" (by decide),
    c2_assignment_id_amended.2.2.2.1 "sc" "ro1" "ro2" "pr" (by decide),
    c2_assignment_id_amended.2.2.2.2 "sc" "ro" "pr1" "pr2" (by decide)⟩

end CosmosSample
